import Mathlib

/-!
NDVI raster pipeline: a shallow embedding.

Verification development for the NDVI generator (`NDVI_Calculator.py`):
`calculate_ndvi` (pure band arithmetic), `generate_ndvi_raster` (read bands,
mask nodata, write a single-band float raster, report statistics) and
`clip_ndvi_by_shapefile` (reproject a vector boundary and crop the raster).

Numeric model: pixel values are exact rationals (ℚ), idealizing the
floating-point arithmetic the code performs after `astype(float)`; the
standard deviation is represented by its square (the variance), which is
rational where the standard deviation itself is not.

Array model: a 2-D numpy array is a shape together with a total data
function; only indices inside the shape are meaningful.  numpy's elementwise
operations broadcast a dimension of size 1 and raise on incompatible shapes,
which the embedding reproduces (`broadcastDim`, `bget`).
-/

namespace NDVI

/-- A 2-D numeric array (numpy `ndarray` of rank 2) over exact rationals. -/
structure NpArray where
  rows : Nat
  cols : Nat
  data : Nat → Nat → ℚ
deriving Inhabited

/-- numpy broadcasting of one dimension: equal sizes broadcast to themselves,
a size-1 dimension stretches to the other, anything else is incompatible. -/
def broadcastDim (m n : Nat) : Option Nat :=
  if m = n then some m
  else if m = 1 then some n
  else if n = 1 then some m
  else none

/-- Reading an array inside a broadcast elementwise operation: a size-1
dimension always reads index 0. -/
def bget (a : NpArray) (i j : Nat) : ℚ :=
  a.data (if a.rows = 1 then 0 else i) (if a.cols = 1 then 0 else j)

/-- Errors surfaced by the pipeline: numpy's broadcast `ValueError` from an
elementwise operation on incompatible shapes, and rasterio's `IndexError` for
a band index outside 1..count. -/
inductive RasterErr where
  | broadcastMismatch
  | bandIndexError
deriving DecidableEq, Inhabited

/-- The function `calculate_ndvi` (NDVI_Calculator.py lines 12-40): widen both bands to
float (exact ℚ here), form `denominator = nir + red`, and take
`np.where(denominator == 0, 0, (nir - red) / denominator)`.  `np.where`
evaluates the division everywhere but selects 0 at zero denominators, so the
observable value there is exactly 0.  The elementwise operations broadcast;
incompatible shapes raise, which is the only failure. -/
def calculate_ndvi (red_band nir_band : NpArray) : Except RasterErr NpArray :=
  match broadcastDim nir_band.rows red_band.rows, broadcastDim nir_band.cols red_band.cols with
  | some r, some c =>
      Except.ok ⟨r, c, fun i j =>
        let red := bget red_band i j
        let nir := bget nir_band i j
        if nir + red = 0 then 0 else (nir - red) / (nir + red)⟩
  | _, _ => Except.error RasterErr.broadcastMismatch

/-- Build an `NpArray` from a rectangular list of rows. -/
def ofLists (l : List (List ℚ)) : NpArray :=
  ⟨l.length, (l.headD []).length, fun i j => ((l.getD i []).getD j 0)⟩

/-- Materialize the in-shape part of an array as a list of rows. -/
def toLists (a : NpArray) : List (List ℚ) :=
  (List.range a.rows).map fun i => (List.range a.cols).map fun j => a.data i j

/-- An affine geotransform (the six coefficients of `rasterio`'s `Affine`). -/
structure Affine where
  a : ℚ
  b : ℚ
  c : ℚ
  d : ℚ
  e : ℚ
  f : ℚ
deriving DecidableEq, Inhabited

/-- A raster dataset's metadata profile (`src.profile` / `src.meta`): driver,
dimensions, band count, pixel type, CRS, geotransform and the optional nodata
sentinel.  The pixel type and CRS are carried as strings. -/
structure Profile where
  driver : String
  width : Nat
  height : Nat
  count : Nat
  dtype : String
  crs : String
  transform : Affine
  nodata : Option ℚ
deriving Inhabited

/-- An opened raster dataset: its profile and its bands (band `i` of the file
is entry `i - 1` of the list; `rasterio` numbers bands from 1). -/
structure Dataset where
  profile : Profile
  bands : List NpArray
deriving Inhabited

/-- Band read `src.read(b)`: the 1-indexed band, or rasterio's `IndexError` when `b` is
outside `1..count`. -/
def readBand (src : Dataset) (b : Nat) : Except RasterErr NpArray :=
  if b = 0 then Except.error RasterErr.bandIndexError
  else
    match src.bands[b - 1]? with
    | some arr => Except.ok arr
    | none => Except.error RasterErr.bandIndexError

/-- The nodata mask (NDVI_Calculator.py lines 81-84): when the dataset
declares a sentinel, an element is masked when either band equals it; with no
sentinel the mask is `np.zeros_like(red, dtype=bool)`, all false. -/
def nodataMask (nodata : Option ℚ) (red nir : NpArray) : Nat → Nat → Bool :=
  match nodata with
  | some nd => fun i j => decide (red.data i j = nd) || decide (nir.data i j = nd)
  | none => fun _ _ => false

/-- Summary statistics of the valid NDVI values (lines 109-113).  The
standard deviation is reported through its square `var` (numpy's `std` is the
square root of this population variance), keeping the report rational. -/
structure NdviStats where
  min : ℚ
  max : ℚ
  mean : ℚ
  var : ℚ
deriving DecidableEq, Inhabited

/-- Statistics `valid.min()/.max()/.mean()/.std()` over a nonempty list; `none` when the
list is empty, matching the `if len(valid_ndvi) > 0` guard. -/
def statsOf (l : List ℚ) : Option NdviStats :=
  match l with
  | [] => none
  | x :: xs =>
      let n : ℚ := (l.length : ℚ)
      let mean := l.sum / n
      some ⟨xs.foldl Min.min x, xs.foldl Max.max x, mean,
            (l.map (fun v => (v - mean) ^ 2)).sum / n⟩

/-- The flattened selection `ndvi[~mask]`: the row-major list of values at unmasked positions. -/
def validValues (img : NpArray) (mask : Nat → Nat → Bool) : List ℚ :=
  (List.range img.rows).flatMap fun i =>
    (List.range img.cols).filterMap fun j =>
      if mask i j then none else some (img.data i j)

/-- The single-band raster `generate_ndvi_raster` writes: the derived
profile, the pixel data, and the band description set to "NDVI". -/
structure WrittenRaster where
  profile : Profile
  image : NpArray
  bandDescription : String
deriving Inhabited

/-- Everything a run of `generate_ndvi_raster` makes observable: the written
raster and the statistics report (`none` when every element was masked and
the statistics block is skipped). -/
structure GenOutput where
  written : WrittenRaster
  stats : Option NdviStats
deriving Inhabited

/-- The pipeline `generate_ndvi_raster` (lines 43-116): read the two bands, build the
nodata mask, compute NDVI, overwrite masked elements with `nodata_value`,
derive the output profile (count 1, dtype float32, nodata = `nodata_value`,
everything else inherited), write the raster with band description "NDVI",
and report statistics over the unmasked elements.  Failures before the write
(band index, shape broadcast) leave no output.  The `float32` cast of the
written data is idealized as exact. -/
def generate_ndvi_raster (src : Dataset) (red_band_index nir_band_index : Nat)
    (nodata_value : ℚ) : Except RasterErr GenOutput :=
  let profile := src.profile
  match readBand src red_band_index with
  | Except.error e => Except.error e
  | Except.ok red =>
    match readBand src nir_band_index with
    | Except.error e => Except.error e
    | Except.ok nir =>
      let mask := nodataMask profile.nodata red nir
      match calculate_ndvi red nir with
      | Except.error e => Except.error e
      | Except.ok ndvi0 =>
        let ndvi : NpArray :=
          ⟨ndvi0.rows, ndvi0.cols, fun i j => if mask i j then nodata_value else ndvi0.data i j⟩
        let outProfile :=
          { profile with count := 1, dtype := "float32", nodata := some nodata_value }
        Except.ok
          { written := { profile := outProfile, image := ndvi, bandDescription := "NDVI" },
            stats := statsOf (validValues ndvi mask) }

/-- Re-opening a written raster yields the profile it was created with. -/
def reopenProfile (w : WrittenRaster) : Profile :=
  w.profile

/-- A polygon boundary geometry, as a list of vertex coordinates. -/
abbrev Geom : Type := List (ℚ × ℚ)

/-- A loaded vector layer (`gpd.read_file`): geometries plus a CRS. -/
structure GeoDataFrame where
  crs : String
  geometry : List Geom

/-- The crop result of `rasterio.mask.mask`: an array of shape
(bands, rows, cols). -/
structure MultiImage where
  bands : Nat
  rows : Nat
  cols : Nat
  data : Nat → Nat → Nat → ℚ
deriving Inhabited

/-- An opened single raster for the clip stage: metadata plus pixels. -/
structure Raster where
  meta : Profile
  pix : Nat → Nat → Nat → ℚ
deriving Inhabited

/-- The clip stage's persisted output: updated metadata and cropped pixels. -/
structure ClipOutput where
  meta : Profile
  image : MultiImage

/-- The clip stage `clip_ndvi_by_shapefile` (lines 119-160), parameterized over the two
external collaborator operations it invokes: `to_crs` (geopandas
reprojection of a layer to a target CRS) and `rmask` (`rasterio.mask.mask`
with `crop=True`, returning the cropped image and its new transform).  The
boundary is reprojected when its CRS differs from the raster's — the raster
itself is never reprojected — then the raster is cropped to the boundary
geometries, and the source metadata is persisted with only height, width and
transform updated. -/
def clip_ndvi_by_shapefile (to_crs : GeoDataFrame → String → GeoDataFrame)
    (rmask : Raster → List Geom → MultiImage × Affine)
    (src : Raster) (gdf0 : GeoDataFrame) : ClipOutput :=
  let gdf := if gdf0.crs ≠ src.meta.crs then to_crs gdf0 src.meta.crs else gdf0
  let res := rmask src gdf.geometry
  let out_image := res.1
  let out_transform := res.2
  let out_meta :=
    { src.meta with height := out_image.rows, width := out_image.cols,
                    transform := out_transform }
  ⟨out_meta, out_image⟩

/-! ## Concrete fixtures

Small concrete datasets and collaborator instances on which the theorems
below are instantiated. -/

/-- A sample multispectral profile: GeoTIFF driver, 2 x 2, two uint16 bands,
projected CRS, dataset nodata sentinel -1. -/
def exProfile : Profile :=
  ⟨"GTiff", 2, 2, 2, "uint16", "EPSG:32633", ⟨10, 0, 0, 0, -10, 100⟩, some (-1)⟩

/-- A red band containing the nodata sentinel at position (0,0). -/
def exRed : NpArray := ofLists [[-1, 100], [200, 50]]

/-- A NIR band containing the nodata sentinel at position (1,0). -/
def exNir : NpArray := ofLists [[0, 200], [-1, 150]]

/-- A two-band dataset built from `exRed` and `exNir`. -/
def exSrc : Dataset := ⟨exProfile, [exRed, exNir]⟩

/-- The raw NDVI array of `exRed`/`exNir`. -/
def exRaw : NpArray := (calculate_ndvi exRed exNir).toOption.getD default

/-- The pipeline output on `exSrc` with output sentinel -9999. -/
def exOut : GenOutput := (generate_ndvi_raster exSrc 1 2 (-9999)).toOption.getD default

/-- A 1 x 1 red band, for the antisymmetry instance. -/
def exRedS : NpArray := ofLists [[1]]

/-- A 1 x 1 NIR band, for the antisymmetry instance. -/
def exNirS : NpArray := ofLists [[3]]

/-- NDVI of `exRedS`/`exNirS` in the given argument order. -/
def exFwd : NpArray := (calculate_ndvi exRedS exNirS).toOption.getD default

/-- NDVI of `exRedS`/`exNirS` with the arguments swapped. -/
def exBwd : NpArray := (calculate_ndvi exNirS exRedS).toOption.getD default

/-- A 2 x 2 array, broadcast-compatible with the 1 x 2 array `exRow`. -/
def exWide : NpArray := ofLists [[1, 2], [3, 4]]

/-- A 1 x 2 array whose shape differs from `exWide`'s but broadcasts. -/
def exRow : NpArray := ofLists [[5, 6]]

/-- A red band equal to the sentinel everywhere (1 x 2). -/
def exRedAM : NpArray := ofLists [[-1, -1]]

/-- A NIR band with the sentinel in its second position (1 x 2). -/
def exNirAM : NpArray := ofLists [[5, -1]]

/-- A dataset every one of whose pixels is masked. -/
def exSrcAM : Dataset := ⟨exProfile, [exRedAM, exNirAM]⟩

/-- A 1 x 1 red band holding the sentinel -1. -/
def exRedZD : NpArray := ofLists [[-1]]

/-- A 1 x 1 NIR band holding 1, so that nir + red = 0 at the masked pixel. -/
def exNirZD : NpArray := ofLists [[1]]

/-- A dataset whose only pixel is masked and has a zero NDVI denominator. -/
def exSrcZD : Dataset := ⟨exProfile, [exRedZD, exNirZD]⟩

/-- The raw NDVI array of `exRedZD`/`exNirZD`. -/
def exRawZD : NpArray := (calculate_ndvi exRedZD exNirZD).toOption.getD default

/-- The pipeline output on `exSrcZD` with output sentinel -9999. -/
def exOutZD : GenOutput := (generate_ndvi_raster exSrcZD 1 2 (-9999)).toOption.getD default

/-- A concrete reprojection collaborator: stamps the target CRS on the layer. -/
def exToCrs : GeoDataFrame → String → GeoDataFrame := fun g c => ⟨c, g.geometry⟩

/-- A concrete crop collaborator: returns a 1 x 1 crop of band depth
`count` and the source transform. -/
def exRmask : Raster → List Geom → MultiImage × Affine :=
  fun s _ => (⟨s.meta.count, 1, 1, fun _ _ _ => 0⟩, s.meta.transform)

/-- A single-band float32 NDVI raster as the clip stage's input. -/
def exNdviRaster : Raster :=
  ⟨{ exProfile with count := 1, dtype := "float32", nodata := some (-9999) }, fun _ _ _ => 0⟩

/-- A boundary layer in a geographic CRS differing from the raster's. -/
def exGdf : GeoDataFrame := ⟨"EPSG:4326", [[(0, 0), (0, 1), (1, 1), (0, 0)]]⟩

/-! ## Helper lemmas -/

/-- Inside the shape, a broadcast read is a plain read (a size-1 dimension
admits only index 0). -/
theorem bget_eq (a : NpArray) (i j : Nat) (hi : i < a.rows) (hj : j < a.cols) :
    bget a i j = a.data i j := by
  unfold bget
  have h1 : (if a.rows = 1 then 0 else i) = i := by
    split
    · omega
    · rfl
  have h2 : (if a.cols = 1 then 0 else j) = j := by
    split
    · omega
    · rfl
  rw [h1, h2]

/-- On equal-shaped inputs `calculate_ndvi` succeeds with the canonical
broadcast-free result array. -/
theorem calculate_ndvi_eq_of_sameShape (red nir : NpArray)
    (hr : red.rows = nir.rows) (hc : red.cols = nir.cols) :
    calculate_ndvi red nir = Except.ok
      ⟨nir.rows, nir.cols, fun i j =>
        if bget nir i j + bget red i j = 0 then 0
        else (bget nir i j - bget red i j) / (bget nir i j + bget red i j)⟩ := by
  simp [calculate_ndvi, broadcastDim, hr, hc]

/-! ## Claim theorems -/

/-- C1: for every pair of red and NIR arrays of identical shape,
`calculate_ndvi` returns an array of the same shape whose value at each
in-shape position is `(nir - red) / (nir + red)` computed after widening to
float (exact rational arithmetic here), except that every position where
`nir + red = 0` holds exactly 0; and on red = [[0,100],[200,50]],
nir = [[0,200],[100,150]] the result is [[0, 1/3], [-1/3, 1/2]]. -/
theorem calculate_ndvi_formula_and_example :
    (∀ red nir : NpArray, red.rows = nir.rows → red.cols = nir.cols →
      ∃ out : NpArray, calculate_ndvi red nir = Except.ok out ∧
        out.rows = red.rows ∧ out.cols = red.cols ∧
        ∀ i j : Nat, i < out.rows → j < out.cols →
          out.data i j =
            if nir.data i j + red.data i j = 0 then 0
            else (nir.data i j - red.data i j) / (nir.data i j + red.data i j)) ∧
    (calculate_ndvi (ofLists [[0,100],[200,50]]) (ofLists [[0,200],[100,150]])).map toLists
      = Except.ok [[0, 1/3], [-1/3, 1/2]] := by
  constructor
  · intro red nir hr hc
    refine ⟨_, calculate_ndvi_eq_of_sameShape red nir hr hc, hr.symm, hc.symm, ?_⟩
    intro i j hi hj
    simp only at hi hj
    dsimp only
    rw [bget_eq nir i j hi hj, bget_eq red i j (hr ▸ hi) (hc ▸ hj)]
  · norm_num [calculate_ndvi, ofLists, toLists, bget, broadcastDim, Except.map, List.range_succ]

/-- C6: on equal-shaped inputs, at every in-shape position where the
denominator `nir + red` is nonzero, swapping the two arguments negates the
NDVI value. -/
theorem calculate_ndvi_antisymmetric (red nir a b : NpArray)
    (hr : red.rows = nir.rows) (hc : red.cols = nir.cols)
    (ha : calculate_ndvi red nir = Except.ok a)
    (hb : calculate_ndvi nir red = Except.ok b)
    (i j : Nat) (hi : i < a.rows) (hj : j < a.cols)
    (hden : nir.data i j + red.data i j ≠ 0) :
    b.data i j = - a.data i j := by
  have hA := calculate_ndvi_eq_of_sameShape red nir hr hc
  rw [ha] at hA
  have hB := calculate_ndvi_eq_of_sameShape nir red hr.symm hc.symm
  rw [hb] at hB
  obtain rfl := Except.ok.inj hA
  obtain rfl := Except.ok.inj hB
  simp only at hi hj
  dsimp only
  rw [bget_eq nir i j hi hj, bget_eq red i j (hr ▸ hi) (hc ▸ hj)]
  rw [if_neg hden, if_neg (fun h => hden (by rwa [add_comm] at h))]
  rw [← neg_div, neg_sub, add_comm (nir.data i j) (red.data i j)]

/-- C6 witness: the antisymmetry instance at red = [[1]], nir = [[3]]. -/
theorem calculate_ndvi_antisymmetric_witness : exBwd.data 0 0 = - exFwd.data 0 0 :=
  calculate_ndvi_antisymmetric exRedS exNirS exFwd exBwd rfl rfl rfl rfl 0 0
    (by decide)
    (by decide)
    (by norm_num [exRedS, exNirS, ofLists])

/-- C3 counterexample: the 2 x 2 array `exWide` and the 1 x 2 array `exRow`
differ in shape, yet `calculate_ndvi` succeeds on them (numpy broadcasts the
size-1 dimension instead of raising), so the computation does not fail
whenever the shapes differ. -/
theorem calculate_ndvi_shape_mismatch_counterexample :
    exWide.rows ≠ exRow.rows ∧
    ∃ out : NpArray, calculate_ndvi exWide exRow = Except.ok out := by
  constructor
  · decide
  · exact ⟨_, rfl⟩

/-- C3 amended: the NDVI computation fails — with the array layer's
broadcast error, the code's only shape-mismatch condition — exactly when the
two input shapes are not broadcast-compatible in some dimension; and whenever
the computation fails, `generate_ndvi_raster` propagates the error and
produces no output. -/
theorem calculate_ndvi_broadcast_failure :
    (∀ red nir : NpArray,
      calculate_ndvi red nir = Except.error RasterErr.broadcastMismatch ↔
        broadcastDim nir.rows red.rows = none ∨ broadcastDim nir.cols red.cols = none) ∧
    (∀ (src : Dataset) (ri ni : Nat) (ndv : ℚ) (red nir : NpArray),
      readBand src ri = Except.ok red → readBand src ni = Except.ok nir →
      calculate_ndvi red nir = Except.error RasterErr.broadcastMismatch →
      generate_ndvi_raster src ri ni ndv = Except.error RasterErr.broadcastMismatch) := by
  constructor
  · intro red nir
    unfold calculate_ndvi
    rcases hr : broadcastDim nir.rows red.rows with _ | r
    · simp
    · rcases hc : broadcastDim nir.cols red.cols with _ | c
      · simp
      · simp
  · intro src ri ni ndv red nir h1 h2 h3
    simp only [generate_ndvi_raster, h1, h2, h3]

/-- A list filter-map that keeps every element is a map. -/
theorem filterMap_some_eq_map (f : Nat → ℚ) (l : List Nat) :
    l.filterMap (fun j => some (f j)) = l.map f := by
  induction l with
  | nil => rfl
  | cons x xs ih => simp [List.filterMap_cons, ih]

/-- A successful pipeline run, destructured: the output is the masked NDVI
image under the derived profile with band description "NDVI", together with
the statistics of the unmasked values. -/
theorem generate_ndvi_raster_ok (src : Dataset) (ri ni : Nat) (ndv : ℚ)
    (red nir raw : NpArray) (out : GenOutput)
    (hred : readBand src ri = Except.ok red) (hnir : readBand src ni = Except.ok nir)
    (hraw : calculate_ndvi red nir = Except.ok raw)
    (hgen : generate_ndvi_raster src ri ni ndv = Except.ok out) :
    out = { written := { profile := { src.profile with
                                      count := 1, dtype := "float32", nodata := some ndv },
                         image := ⟨raw.rows, raw.cols, fun i j =>
                           if nodataMask src.profile.nodata red nir i j then ndv
                           else raw.data i j⟩,
                         bandDescription := "NDVI" },
            stats := statsOf (validValues
              ⟨raw.rows, raw.cols, fun i j =>
                if nodataMask src.profile.nodata red nir i j then ndv else raw.data i j⟩
              (nodataMask src.profile.nodata red nir)) } := by
  simp only [generate_ndvi_raster, hred, hnir, hraw] at hgen
  exact (Except.ok.inj hgen).symm

/-- C2: on a successful run over a dataset that declares a nodata sentinel,
the written value is the output sentinel exactly at the positions where
either band equals the dataset sentinel and is the raw NDVI value elsewhere,
and the statistics are those of the raw NDVI values at exactly the unmasked
positions; when the dataset declares no sentinel nothing is masked and the
statistics range over every position. -/
theorem generate_ndvi_nodata_masking_and_stats (src : Dataset) (ri ni : Nat) (ndv : ℚ)
    (red nir raw : NpArray) (out : GenOutput)
    (hr : red.rows = nir.rows) (hc : red.cols = nir.cols)
    (hred : readBand src ri = Except.ok red) (hnir : readBand src ni = Except.ok nir)
    (hraw : calculate_ndvi red nir = Except.ok raw)
    (hgen : generate_ndvi_raster src ri ni ndv = Except.ok out) :
    (∀ nd : ℚ, src.profile.nodata = some nd →
      (∀ i j : Nat,
        out.written.image.data i j =
          if red.data i j = nd ∨ nir.data i j = nd then ndv else raw.data i j) ∧
      out.stats = statsOf ((List.range raw.rows).flatMap fun i =>
        (List.range raw.cols).filterMap fun j =>
          if red.data i j = nd ∨ nir.data i j = nd then none
          else some (raw.data i j))) ∧
    (src.profile.nodata = none →
      (∀ i j : Nat, out.written.image.data i j = raw.data i j) ∧
      out.stats = statsOf ((List.range raw.rows).flatMap fun i =>
        (List.range raw.cols).map fun j => raw.data i j)) := by
  obtain rfl := generate_ndvi_raster_ok src ri ni ndv red nir raw out hred hnir hraw hgen
  constructor
  · intro nd hnd
    rw [hnd]
    constructor
    · intro i j
      dsimp only
      by_cases h : red.data i j = nd ∨ nir.data i j = nd
      · rw [if_pos h]
        rcases h with h | h
        · simp [nodataMask, h]
        · simp [nodataMask, h]
      · rw [if_neg h]
        rw [not_or] at h
        simp [nodataMask, h.1, h.2]
    · dsimp only
      congr 1
      unfold validValues
      dsimp only
      congr 1
      funext i
      congr 1
      funext j
      by_cases h : red.data i j = nd ∨ nir.data i j = nd
      · rw [if_pos h]
        rcases h with h | h
        · simp [nodataMask, h]
        · simp [nodataMask, h]
      · rw [if_neg h]
        rw [not_or] at h
        simp [nodataMask, h.1, h.2]
  · intro hnd
    rw [hnd]
    constructor
    · intro i j
      simp [nodataMask]
    · dsimp only
      congr 1
      unfold validValues
      dsimp only
      simp only [nodataMask]
      congr 1
      funext i
      rw [← filterMap_some_eq_map (fun j => raw.data i j) (List.range raw.cols)]
      congr 1

/-- C2 witness: the masking and statistics property instantiated on the
concrete dataset `exSrc`, whose sentinel -1 appears in each band once. -/
theorem generate_ndvi_nodata_masking_and_stats_witness :
    (∀ nd : ℚ, exSrc.profile.nodata = some nd →
      (∀ i j : Nat,
        exOut.written.image.data i j =
          if exRed.data i j = nd ∨ exNir.data i j = nd then (-9999 : ℚ)
          else exRaw.data i j) ∧
      exOut.stats = statsOf ((List.range exRaw.rows).flatMap fun i =>
        (List.range exRaw.cols).filterMap fun j =>
          if exRed.data i j = nd ∨ exNir.data i j = nd then none
          else some (exRaw.data i j))) ∧
    (exSrc.profile.nodata = none →
      (∀ i j : Nat, exOut.written.image.data i j = exRaw.data i j) ∧
      exOut.stats = statsOf ((List.range exRaw.rows).flatMap fun i =>
        (List.range exRaw.cols).map fun j => exRaw.data i j)) :=
  generate_ndvi_nodata_masking_and_stats exSrc 1 2 (-9999) exRed exNir exRaw exOut
    rfl rfl rfl rfl rfl rfl

/-- C4: the output profile equals the input profile with band count forced
to 1, dtype forced to float32 and nodata forced to the output sentinel, all
other fields inherited unchanged; hence re-opening the written raster yields
the input's width, height, transform, CRS and driver with band count 1 and
dtype float32. -/
theorem generate_ndvi_profile_inheritance (src : Dataset) (ri ni : Nat) (ndv : ℚ)
    (out : GenOutput)
    (hgen : generate_ndvi_raster src ri ni ndv = Except.ok out) :
    out.written.profile =
      { src.profile with count := 1, dtype := "float32", nodata := some ndv } ∧
    (reopenProfile out.written).width = src.profile.width ∧
    (reopenProfile out.written).height = src.profile.height ∧
    (reopenProfile out.written).transform = src.profile.transform ∧
    (reopenProfile out.written).crs = src.profile.crs ∧
    (reopenProfile out.written).driver = src.profile.driver ∧
    (reopenProfile out.written).count = 1 ∧
    (reopenProfile out.written).dtype = "float32" ∧
    (reopenProfile out.written).nodata = some ndv := by
  simp only [generate_ndvi_raster] at hgen
  rcases h1 : readBand src ri with e | red
  · rw [h1] at hgen
    simp at hgen
  · rw [h1] at hgen
    dsimp only at hgen
    rcases h2 : readBand src ni with e | nir
    · rw [h2] at hgen
      simp at hgen
    · rw [h2] at hgen
      dsimp only at hgen
      rcases h3 : calculate_ndvi red nir with e | raw
      · rw [h3] at hgen
        simp at hgen
      · rw [h3] at hgen
        dsimp only at hgen
        obtain rfl := Except.ok.inj hgen
        exact ⟨rfl, rfl, rfl, rfl, rfl, rfl, rfl, rfl, rfl⟩

/-- C4 witness: the profile derivation instantiated on `exSrc`. -/
theorem generate_ndvi_profile_inheritance_witness :
    exOut.written.profile =
      { exSrc.profile with count := 1, dtype := "float32", nodata := some (-9999 : ℚ) } ∧
    (reopenProfile exOut.written).width = exSrc.profile.width ∧
    (reopenProfile exOut.written).height = exSrc.profile.height ∧
    (reopenProfile exOut.written).transform = exSrc.profile.transform ∧
    (reopenProfile exOut.written).crs = exSrc.profile.crs ∧
    (reopenProfile exOut.written).driver = exSrc.profile.driver ∧
    (reopenProfile exOut.written).count = 1 ∧
    (reopenProfile exOut.written).dtype = "float32" ∧
    (reopenProfile exOut.written).nodata = some (-9999 : ℚ) :=
  generate_ndvi_profile_inheritance exSrc 1 2 (-9999) exOut rfl

/-- A selection that drops every in-shape element is empty. -/
theorem validValues_eq_nil (img : NpArray) (mask : Nat → Nat → Bool)
    (h : ∀ i j : Nat, i < img.rows → j < img.cols → mask i j = true) :
    validValues img mask = [] := by
  unfold validValues
  rw [List.eq_nil_iff_forall_not_mem]
  intro x hx
  rw [List.mem_flatMap] at hx
  obtain ⟨i, hi, hx⟩ := hx
  rw [List.mem_filterMap] at hx
  obtain ⟨j, hj, hx⟩ := hx
  rw [List.mem_range] at hi hj
  rw [h i j hi hj] at hx
  simp at hx

/-- C7: when the dataset declares a sentinel and every in-shape pixel of at
least one band equals it, `generate_ndvi_raster` still succeeds (no error is
raised) and its statistics report is the empty report `none`: the statistics
block is skipped rather than computed. -/
theorem generate_ndvi_all_masked_empty_report (src : Dataset) (ri ni : Nat)
    (ndv nd : ℚ) (red nir : NpArray)
    (hnd : src.profile.nodata = some nd)
    (hred : readBand src ri = Except.ok red) (hnir : readBand src ni = Except.ok nir)
    (hr : red.rows = nir.rows) (hc : red.cols = nir.cols)
    (hmask : ∀ i j : Nat, i < nir.rows → j < nir.cols →
      red.data i j = nd ∨ nir.data i j = nd) :
    ∃ out : GenOutput, generate_ndvi_raster src ri ni ndv = Except.ok out ∧
      out.stats = none := by
  have hraw := calculate_ndvi_eq_of_sameShape red nir hr hc
  simp only [generate_ndvi_raster, hred, hnir, hraw]
  refine ⟨_, rfl, ?_⟩
  dsimp only
  rw [validValues_eq_nil]
  · rfl
  · intro i j hi hj
    rw [hnd]
    rcases hmask i j hi hj with h | h
    · simp [nodataMask, h]
    · simp [nodataMask, h]

/-- C7 witness: the empty-report property instantiated on the fully masked
dataset `exSrcAM`. -/
theorem generate_ndvi_all_masked_empty_report_witness :
    ∃ out : GenOutput, generate_ndvi_raster exSrcAM 1 2 (-9999) = Except.ok out ∧
      out.stats = none :=
  generate_ndvi_all_masked_empty_report exSrcAM 1 2 (-9999) (-1) exRedAM exNirAM
    rfl rfl rfl rfl rfl
    (by
      intro i j hi hj
      have h1 : exNirAM.rows = 1 := rfl
      have h2 : exNirAM.cols = 2 := rfl
      rw [h1] at hi
      rw [h2] at hj
      left
      obtain rfl : i = 0 := by omega
      interval_cases j
      · norm_num [exRedAM, ofLists]
      · norm_num [exRedAM, ofLists])

/-- C9: at a pixel masked by the dataset sentinel the written value is the
output sentinel even when nir + red = 0 there — the mask overwrite is
applied after the NDVI computation and takes precedence over the
zero-denominator-to-zero policy. -/
theorem generate_ndvi_mask_overrides_zero_denominator (src : Dataset) (ri ni : Nat)
    (ndv nd : ℚ) (red nir raw : NpArray) (out : GenOutput) (i j : Nat)
    (hnd : src.profile.nodata = some nd)
    (hred : readBand src ri = Except.ok red) (hnir : readBand src ni = Except.ok nir)
    (hraw : calculate_ndvi red nir = Except.ok raw)
    (hgen : generate_ndvi_raster src ri ni ndv = Except.ok out)
    (hm : red.data i j = nd ∨ nir.data i j = nd)
    (hden : nir.data i j + red.data i j = 0) :
    out.written.image.data i j = ndv := by
  obtain rfl := generate_ndvi_raster_ok src ri ni ndv red nir raw out hred hnir hraw hgen
  dsimp only
  rw [hnd]
  rcases hm with h | h
  · simp [nodataMask, h]
  · simp [nodataMask, h]

/-- C9 witness: on `exSrcZD` the only pixel is masked (red holds the
sentinel) and has nir + red = 0, and the written value is -9999. -/
theorem generate_ndvi_mask_overrides_zero_denominator_witness :
    exOutZD.written.image.data 0 0 = -9999 :=
  generate_ndvi_mask_overrides_zero_denominator exSrcZD 1 2 (-9999) (-1)
    exRedZD exNirZD exRawZD exOutZD 0 0 rfl rfl rfl rfl rfl
    (Or.inl (by norm_num [exRedZD, ofLists]))
    (by norm_num [exRedZD, exNirZD, ofLists])

/-- C5: when the boundary's CRS differs from the raster's, clipping equals
clipping with the same boundary already reprojected to the raster's CRS —
for any reprojection collaborator that stamps the target CRS on its result —
and the geometries actually cropped are the reprojected ones applied to the
original, never-reprojected raster. -/
theorem clip_reprojection_equivalence
    (to_crs : GeoDataFrame → String → GeoDataFrame)
    (rmask : Raster → List Geom → MultiImage × Affine)
    (src : Raster) (gdf : GeoDataFrame)
    (hto : ∀ (g : GeoDataFrame) (c : String), (to_crs g c).crs = c)
    (hne : gdf.crs ≠ src.meta.crs) :
    clip_ndvi_by_shapefile to_crs rmask src gdf =
      clip_ndvi_by_shapefile to_crs rmask src (to_crs gdf src.meta.crs) ∧
    (clip_ndvi_by_shapefile to_crs rmask src gdf).image =
      (rmask src (to_crs gdf src.meta.crs).geometry).1 := by
  have h2 : ¬ (to_crs gdf src.meta.crs).crs ≠ src.meta.crs :=
    not_not_intro (hto gdf src.meta.crs)
  unfold clip_ndvi_by_shapefile
  rw [if_pos hne, if_neg h2]
  exact ⟨rfl, rfl⟩

/-- C5 witness: the equivalence instantiated on the concrete collaborators
`exToCrs`/`exRmask`, the raster `exNdviRaster` and the boundary `exGdf`,
whose CRS strings differ. -/
theorem clip_reprojection_equivalence_witness :
    clip_ndvi_by_shapefile exToCrs exRmask exNdviRaster exGdf =
      clip_ndvi_by_shapefile exToCrs exRmask exNdviRaster
        (exToCrs exGdf exNdviRaster.meta.crs) ∧
    (clip_ndvi_by_shapefile exToCrs exRmask exNdviRaster exGdf).image =
      (exRmask exNdviRaster (exToCrs exGdf exNdviRaster.meta.crs).geometry).1 :=
  clip_reprojection_equivalence exToCrs exRmask exNdviRaster exGdf
    (fun _ _ => rfl) (by decide)

/-- C8: the persisted clipped raster keeps the source raster's band count,
pixel type and CRS (and driver), while its height, width and transform are
those of the crop result returned by the mask operation. -/
theorem clip_meta_update
    (to_crs : GeoDataFrame → String → GeoDataFrame)
    (rmask : Raster → List Geom → MultiImage × Affine)
    (src : Raster) (gdf : GeoDataFrame) :
    (clip_ndvi_by_shapefile to_crs rmask src gdf).meta.count = src.meta.count ∧
    (clip_ndvi_by_shapefile to_crs rmask src gdf).meta.dtype = src.meta.dtype ∧
    (clip_ndvi_by_shapefile to_crs rmask src gdf).meta.crs = src.meta.crs ∧
    (clip_ndvi_by_shapefile to_crs rmask src gdf).meta.driver = src.meta.driver ∧
    (clip_ndvi_by_shapefile to_crs rmask src gdf).meta.height =
      (clip_ndvi_by_shapefile to_crs rmask src gdf).image.rows ∧
    (clip_ndvi_by_shapefile to_crs rmask src gdf).meta.width =
      (clip_ndvi_by_shapefile to_crs rmask src gdf).image.cols ∧
    (clip_ndvi_by_shapefile to_crs rmask src gdf).meta.transform =
      (rmask src (if gdf.crs ≠ src.meta.crs then to_crs gdf src.meta.crs
                  else gdf).geometry).2 ∧
    (clip_ndvi_by_shapefile to_crs rmask src gdf).image =
      (rmask src (if gdf.crs ≠ src.meta.crs then to_crs gdf src.meta.crs
                  else gdf).geometry).1 :=
  ⟨rfl, rfl, rfl, rfl, rfl, rfl, rfl, rfl⟩

/-- C10: the clip stage copies the source raster's metadata and updates only
height, width and transform; in particular the nodata sentinel is inherited
unchanged, so any pixel of the clipped output holding the source sentinel —
as the fill outside the boundary does — is marked as nodata by the output's
own metadata. -/
theorem clip_preserves_nodata
    (to_crs : GeoDataFrame → String → GeoDataFrame)
    (rmask : Raster → List Geom → MultiImage × Affine)
    (src : Raster) (gdf : GeoDataFrame) (v : ℚ)
    (hv : src.meta.nodata = some v) :
    (clip_ndvi_by_shapefile to_crs rmask src gdf).meta.nodata = some v ∧
    (clip_ndvi_by_shapefile to_crs rmask src gdf).meta =
      { src.meta with
        height := (clip_ndvi_by_shapefile to_crs rmask src gdf).image.rows,
        width := (clip_ndvi_by_shapefile to_crs rmask src gdf).image.cols,
        transform := (clip_ndvi_by_shapefile to_crs rmask src gdf).meta.transform } ∧
    (∀ b i j : Nat, (clip_ndvi_by_shapefile to_crs rmask src gdf).image.data b i j = v →
      (clip_ndvi_by_shapefile to_crs rmask src gdf).meta.nodata =
        some ((clip_ndvi_by_shapefile to_crs rmask src gdf).image.data b i j)) := by
  refine ⟨by rw [← hv]; rfl, rfl, ?_⟩
  intro b i j h
  rw [h, ← hv]
  rfl

/-- C10 witness: nodata preservation instantiated on `exNdviRaster`, whose
sentinel is -9999. -/
theorem clip_preserves_nodata_witness :
    (clip_ndvi_by_shapefile exToCrs exRmask exNdviRaster exGdf).meta.nodata =
      some (-9999 : ℚ) ∧
    (clip_ndvi_by_shapefile exToCrs exRmask exNdviRaster exGdf).meta =
      { exNdviRaster.meta with
        height := (clip_ndvi_by_shapefile exToCrs exRmask exNdviRaster exGdf).image.rows,
        width := (clip_ndvi_by_shapefile exToCrs exRmask exNdviRaster exGdf).image.cols,
        transform :=
          (clip_ndvi_by_shapefile exToCrs exRmask exNdviRaster exGdf).meta.transform } ∧
    (∀ b i j : Nat,
      (clip_ndvi_by_shapefile exToCrs exRmask exNdviRaster exGdf).image.data b i j =
        (-9999 : ℚ) →
      (clip_ndvi_by_shapefile exToCrs exRmask exNdviRaster exGdf).meta.nodata =
        some ((clip_ndvi_by_shapefile exToCrs exRmask exNdviRaster exGdf).image.data b i j)) :=
  clip_preserves_nodata exToCrs exRmask exNdviRaster exGdf (-9999) rfl
